import Mathlib

/-!
Verification development for the `bet_prediction` Over/Under-2.5 prediction core.

The development shallowly embeds the feature-engineering and probabilistic
prediction pipeline of the repository:

* `ml_gemini/poisson_probability.py` — the Poisson probability engine, embedded
  over the real numbers (`Real.exp` stands for `math.exp`; Python floats are
  idealised as reals, which is the standard shallow embedding for code whose
  claims are about the mathematical formulas it computes).
* `ml_gemini/features.py` — statistics accessor, historical window selectors and
  the feature extractor, embedded over `ℚ` (exact arithmetic) with the Django
  ORM queries modelled as list filtering / sorting / truncation over an explicit
  list-of-rows database.
* `ml_gemini/poisson_model.py` and `ml_gemini/xg_classifier.py` — the dataset
  loading, column validation, imputation and chronological-split logic, embedded
  over an explicit CSV value (header plus rows of optional rationals, a cell
  being `none` when missing or non-numeric, mirroring `pd.to_numeric(...,
  errors="coerce")`).

Definitions are translated from the source; theorems check the specification's
claims against them.
-/

namespace BetPrediction

/-! ## Python value model

Statistics payloads are JSON lists of `{"type": ..., "value": ...}` objects.
A value can be `null`, a number or a string; `PyValue` models exactly the
cases `_to_float` / `_to_int` in `ml_gemini/features.py` distinguish (any
other Python type falls to the final `return None`, modelled by `vOther`). -/
inductive PyValue where
  | vNone : PyValue
  | vInt : ℤ → PyValue
  | vFloat : ℚ → PyValue
  | vStr : String → PyValue
  | vOther : PyValue
deriving DecidableEq, Repr

/-! ## String utilities (Python semantics used by `ml_gemini/features.py`) -/

/-- Python `str.strip()`: drop whitespace from both ends. -/
def pyStrip (cs : List Char) : List Char :=
  ((cs.dropWhile Char.isWhitespace).reverse.dropWhile Char.isWhitespace).reverse

/-- Python substring containment `needle in hay`. -/
def containsSub (hay needle : List Char) : Bool :=
  (List.range (hay.length + 1)).any (fun i => needle.isPrefixOf (hay.drop i))

/-- Numeric value of a decimal digit character. -/
def digitVal (c : Char) : ℕ := c.toNat - 48

/-- Value of a string of decimal digits. -/
def digitsToNat (cs : List Char) : ℕ :=
  cs.foldl (fun acc c => 10 * acc + digitVal c) 0

/-- Python `float(s)` on the decimal-literal forms statistic values take:
optional sign, digits with at most one `.`, at least one digit, surrounding
whitespace allowed (exponent and `inf`/`nan` forms, which never occur in the
statistics payloads, are unparsable here).  Returns `none` where Python raises
`ValueError`. -/
def pyFloatLit (s : List Char) : Option ℚ :=
  let cs := pyStrip s
  let signAndBody : ℚ × List Char :=
    match cs with
    | '-' :: rest => (-1, rest)
    | '+' :: rest => (1, rest)
    | _ => (1, cs)
  let sign := signAndBody.1
  let body := signAndBody.2
  let intPart := body.takeWhile (fun c => c ≠ '.')
  let rest := body.dropWhile (fun c => c ≠ '.')
  if rest.isEmpty then
    if !intPart.isEmpty && intPart.all Char.isDigit then
      some (sign * digitsToNat intPart)
    else none
  else
    let frac := rest.drop 1
    if frac.any (fun c => c = '.') then none
    else if intPart.isEmpty && frac.isEmpty then none
    else if intPart.all Char.isDigit && frac.all Char.isDigit then
      some (sign * ((digitsToNat intPart : ℚ) + (digitsToNat frac : ℚ) / 10 ^ frac.length))
    else none

/-- Python `int(x)` on a float: truncation toward zero. -/
def pyTrunc (q : ℚ) : ℤ := if q < 0 then ⌈q⌉ else ⌊q⌋

/-! ## Poisson probability engine (`ml_gemini/poisson_probability.py`) -/

/-- `poisson_pmf(k, lam)` from `poisson_probability.py`:
guard clauses `lam < 0 or k < 0` and `k > 100` return `0.0`, otherwise
`(lam ** k) * math.exp(-lam) / math.factorial(k)`.  `k` is a Python `int`
(embedded as `ℤ`); in the formula branch `k ≥ 0`, so `k.toNat` is `k`. -/
noncomputable def poisson_pmf (k : ℤ) (lam : ℝ) : ℝ :=
  if lam < 0 ∨ k < 0 then 0
  else if k > 100 then 0
  else lam ^ k.toNat * Real.exp (-lam) / (Nat.factorial k.toNat)

/-- `prob_over_2_5(lam)`: `1.0 - (p0 + p1 + p2)`. -/
noncomputable def prob_over_2_5 (lam : ℝ) : ℝ :=
  let p0 := poisson_pmf 0 lam
  let p1 := poisson_pmf 1 lam
  let p2 := poisson_pmf 2 lam
  1 - (p0 + p1 + p2)

/-- The dictionary returned by `poisson_probabilities(lam)`. -/
structure PoissonDistribution where
  lambda : ℝ
  p0 : ℝ
  p1 : ℝ
  p2 : ℝ
  probOver : ℝ

/-- `poisson_probabilities(lam)` from `poisson_probability.py`. -/
noncomputable def poisson_probabilities (lam : ℝ) : PoissonDistribution :=
  { lambda := lam
    p0 := poisson_pmf 0 lam
    p1 := poisson_pmf 1 lam
    p2 := poisson_pmf 2 lam
    probOver := prob_over_2_5 lam }

/-! ## Data model (`api_football/models.py`, read-only for the core) -/

/-- `Game.Status` text choices. -/
inductive GameStatus where
  | TBD | NS | LIVE | FT | AET | PST | CANC | AWD | WO
deriving DecidableEq, Repr

/-- `FINISHED_STATUSES = (Game.Status.FT, Game.Status.AET, Game.Status.AWD, Game.Status.WO)`
from `ml_gemini/features.py`. -/
def FINISHED_STATUSES : List GameStatus := [.FT, .AET, .AWD, .WO]

/-- The `Game` fixture row.  `kickoff` (a `DateTimeField`, nullable) is
modelled as an integer timestamp; nullable foreign keys and goal counts are
`Option`s.  `pk` is the database primary key (Django pks are positive; `0`
models an unsaved row, whose `pk` is falsy). -/
structure Game where
  pk : ℕ
  home_team_id : ℕ
  away_team_id : ℕ
  competition_id : Option ℕ
  kickoff : Option ℤ
  status : GameStatus
  home_goals : Option ℤ
  away_goals : Option ℤ
deriving DecidableEq, Repr

/-- `Game.is_finished()`: membership of `status` in the finished variants. -/
def Game.is_finished (g : Game) : Bool :=
  FINISHED_STATUSES.contains g.status

/-- One item of a statistics JSON payload: `{"type": ..., "value": ...}`.
`type` is `none` when the key is absent or `null`. -/
structure StatItem where
  type : Option String
  value : PyValue
deriving DecidableEq, Repr

/-- A `GameStatistics` row: per-team statistics list for a fixture.
`statistics` is a JSON field; `none` models a `null` payload. -/
structure GameStatisticsRow where
  game_id : ℕ
  team_id : ℕ
  statistics : Option (List StatItem)
deriving DecidableEq, Repr

/-! ## Statistics accessor (`ml_gemini/features.py`) -/

/-- Keyword constants from `ml_gemini/features.py`. -/
def SHOTS_ON_TARGET_KEYWORDS : List String := ["shots on goal", "shots on target"]

def SHOTS_TOTAL_KEYWORDS : List String := ["total shots", "shots total"]

def POSSESSION_KEYWORDS : List String := ["possession"]

def BIG_CHANCES_KEYWORDS : List String := ["big chances"]

/-- The underlying storage read in `_statistics_payload`:
`GameStatistics.objects.filter(game_id=..., team_id=...).values_list("statistics", flat=True).first() or []`.
The statistics database is an explicit list of rows and `first()` takes the
first matching row; a falsy payload (`null` or `[]`) becomes `[]`. -/
def _statistics_payload (sdb : List GameStatisticsRow) (game_id team_id : ℕ) :
    List StatItem :=
  match sdb.find? (fun r => r.game_id == game_id && r.team_id == team_id) with
  | some r =>
      match r.statistics with
      | none => []
      | some l => l
  | none => []

/-- The `@lru_cache(maxsize=200000)` wrapper around `_statistics_payload`,
modelled explicitly: the cache is an association list keyed by
`(game_id, team_id)`; a hit returns the cached payload unchanged, a miss reads
the store and records the result.  (Eviction at 200000 entries is not
modelled; no scenario in this development reaches the bound.) -/
def StatsCache := List ((ℕ × ℕ) × List StatItem)

/-- Cache lookup for a `(game_id, team_id)` key. -/
def cacheLookup (cache : StatsCache) (game_id team_id : ℕ) : Option (List StatItem) :=
  match cache.find? (fun e => e.1.1 == game_id && e.1.2 == team_id) with
  | some e => some e.2
  | none => none

/-- One call through the `lru_cache`d `_statistics_payload`. -/
def statistics_payload_cached (sdb : List GameStatisticsRow) (cache : StatsCache)
    (game_id team_id : ℕ) : List StatItem × StatsCache :=
  match cacheLookup cache game_id team_id with
  | some payload => (payload, cache)
  | none =>
      let payload := _statistics_payload sdb game_id team_id
      (payload, ((game_id, team_id), payload) :: cache)

/-- A feature-building batch issuing a sequence of statistics lookups against a
fixed store, threading the (module-level, hence shared) cache.  Returns the
observed payloads and the cache left behind for the next batch in the same
process. -/
def run_stats_batch (sdb : List GameStatisticsRow) (cache : StatsCache)
    (keys : List (ℕ × ℕ)) : List (List StatItem) × StatsCache :=
  match keys with
  | [] => ([], cache)
  | k :: rest =>
      let step := statistics_payload_cached sdb cache k.1 k.2
      let tail := run_stats_batch sdb step.2 rest
      (step.1 :: tail.1, tail.2)

/-- Python `str.lower()` (the labels and keywords are ASCII), working on the
character list. -/
def pyLower (cs : List Char) : List Char := cs.map Char.toLower

/-- The matching predicate inside `_stat_value`'s loop:
`t = (item.get("type") or "").strip().lower()` and `any(k in t for k in lowered)`. -/
def statTypeMatches (item : StatItem) (lowered : List (List Char)) : Bool :=
  let t := pyLower (pyStrip (item.type.getD "").data)
  lowered.any (fun k => containsSub t k)

/-- `_stat_value(statistics_list, keywords)`: returns the `value` of the first
item whose lowered, stripped type label contains any lowered keyword as a
substring; Python returns `None` (here `.vNone`) when the list is falsy or no
item matches. -/
def _stat_value (statistics_list : List StatItem) (keywords : List String) : PyValue :=
  if statistics_list.isEmpty then .vNone
  else
    let lowered := keywords.map (fun k => pyLower k.data)
    match statistics_list.find? (fun item => statTypeMatches item lowered) with
    | some item => item.value
    | none => .vNone

/-- `_to_float(value)`: `None → None`; numbers pass through as floats; a string
is stripped, then **every** `%` is removed (`str.replace("%", "")` replaces all
occurrences), an empty remainder gives `None`, otherwise `float(...)` parses it
(`ValueError → None`); any other type gives `None`. -/
def _to_float (value : PyValue) : Option ℚ :=
  match value with
  | .vNone => none
  | .vInt n => some (n : ℚ)
  | .vFloat q => some q
  | .vStr s =>
      let v := (pyStrip s.data).filter (fun c => c ≠ '%')
      if v.isEmpty then none
      else pyFloatLit v
  | .vOther => none

/-- `_to_int(value)`: same shape as `_to_float` but numbers and parsed strings
are truncated with `int(...)` (toward zero). -/
def _to_int (value : PyValue) : Option ℤ :=
  match value with
  | .vNone => none
  | .vInt n => some n
  | .vFloat q => some (pyTrunc q)
  | .vStr s =>
      let v := (pyStrip s.data).filter (fun c => c ≠ '%')
      if v.isEmpty then none
      else (pyFloatLit v).map pyTrunc
  | .vOther => none

/-- The numeric coercion exactly as the specification's words describe it:
strip a **trailing** `%` if present, then parse; unparsable or missing gives
`None`.  Stated only for comparison with the source's `_to_float`, which
removes every `%`. -/
def to_float_spec (value : PyValue) : Option ℚ :=
  match value with
  | .vNone => none
  | .vInt n => some (n : ℚ)
  | .vFloat q => some q
  | .vStr s =>
      let stripped := pyStrip s.data
      let v := if stripped.getLast? = some '%' then stripped.dropLast else stripped
      if v.isEmpty then none
      else pyFloatLit v
  | .vOther => none

/-! ## Historical window selectors (`ml_gemini/features.py`) -/

/-- Django `kickoff__lt=before_dt`: `NULL` kickoffs never match. -/
def kickoffLt (g : Game) (before_dt : ℤ) : Bool :=
  match g.kickoff with
  | some k => k < before_dt
  | none => false

/-- `order_by("-kickoff")`: kickoff-descending comparison used for sorting.
(Within a window every kickoff is non-`NULL`; `getD` is only a totalisation.
The query's ordering is modelled by a stable sort under this relation.) -/
def kickoffDesc (a b : Game) : Prop :=
  b.kickoff.getD 0 ≤ a.kickoff.getD 0

instance : DecidableRel kickoffDesc := fun a b =>
  inferInstanceAs (Decidable (b.kickoff.getD 0 ≤ a.kickoff.getD 0))

instance : IsTotal Game kickoffDesc :=
  ⟨fun a b => le_total (b.kickoff.getD 0) (a.kickoff.getD 0)⟩

instance : IsTrans Game kickoffDesc :=
  ⟨fun _ _ _ h1 h2 => le_trans h2 h1⟩

/-- `_last_n_home_games(team_id, before_dt, competition_id, n)`:
filter on home team, competition, `kickoff < before_dt` and finished status,
order by kickoff descending, truncate to `n`. -/
def _last_n_home_games (db : List Game) (team_id : ℕ) (before_dt : ℤ)
    (competition_id : ℕ) (n : ℕ) : List Game :=
  (((db.filter (fun g =>
      g.home_team_id == team_id &&
      g.competition_id == some competition_id &&
      kickoffLt g before_dt &&
      FINISHED_STATUSES.contains g.status)).insertionSort kickoffDesc).take n)

/-- `_last_n_away_games(team_id, before_dt, competition_id, n)`. -/
def _last_n_away_games (db : List Game) (team_id : ℕ) (before_dt : ℤ)
    (competition_id : ℕ) (n : ℕ) : List Game :=
  (((db.filter (fun g =>
      g.away_team_id == team_id &&
      g.competition_id == some competition_id &&
      kickoffLt g before_dt &&
      FINISHED_STATUSES.contains g.status)).insertionSort kickoffDesc).take n)

/-- `_last_n_h2h(home_team_id, away_team_id, before_dt, competition_id, n)`:
the two teams met in either venue configuration. -/
def _last_n_h2h (db : List Game) (home_team_id away_team_id : ℕ) (before_dt : ℤ)
    (competition_id : ℕ) (n : ℕ) : List Game :=
  (((db.filter (fun g =>
      ((g.home_team_id == home_team_id && g.away_team_id == away_team_id) ||
        (g.home_team_id == away_team_id && g.away_team_id == home_team_id)) &&
      g.competition_id == some competition_id &&
      kickoffLt g before_dt &&
      FINISHED_STATUSES.contains g.status)).insertionSort kickoffDesc).take n)

/-! ## Feature extractor (`ml_gemini/features.py`)

The extractor consumes the window selectors and the statistics accessor.  The
statistics lookups go through the `lru_cache`d `_statistics_payload`; during a
single extraction the store is fixed and unmodified (the pipeline is
single-threaded and batch-oriented), so every cached lookup agrees with the
pure read `_statistics_payload` — `statistics_payload_cached_consistent` below
proves this, and the extractor is embedded with the pure read.  Python floats
are embedded as `ℚ`; feature arithmetic here is sums, divisions and averages
of small integers. -/

/-- `_safe_avg(values)`: `None` on an empty list, else the mean. -/
def _safe_avg (values : List ℚ) : Option ℚ :=
  if values.isEmpty then none
  else some (values.sum / values.length)

/-- `_safe_ratio(numerator, denominator)`: `None` when the numerator is `None`
or the denominator is `None` or `0`, else the quotient. -/
def _safe_ratio (numerator denominator : Option ℚ) : Option ℚ :=
  match numerator, denominator with
  | none, _ => none
  | _, none => none
  | some a, some b => if b = 0 then none else some (a / b)

/-- Python `x or 0` on a nullable integer: `None → 0` (and `0 or 0 = 0`). -/
def pyOrZero (v : Option ℤ) : ℤ :=
  match v with
  | none => 0
  | some n => n

/-- `_team_stat_for_game(game, team, keywords, transform)`: `None` for falsy
pks, else look the payload up, take the first keyword-matching value and
transform it; `None` when `_stat_value` found nothing (`raw is None`). -/
def _team_stat_for_game (sdb : List GameStatisticsRow) (game_pk team_pk : ℕ)
    (keywords : List String) (transform : PyValue → Option ℚ) : Option ℚ :=
  if game_pk == 0 || team_pk == 0 then none
  else
    let payload := _statistics_payload sdb game_pk team_pk
    let raw := _stat_value payload keywords
    if raw = .vNone then none
    else transform raw

/-- `_team_stat_avg(games, team_selector, keywords, transform)`: collect the
non-`None` transformed values over the games (skipping games whose selector
yields no team) and `_safe_avg` them. -/
def _team_stat_avg (sdb : List GameStatisticsRow) (games : List Game)
    (team_selector : Game → Option ℕ) (keywords : List String)
    (transform : PyValue → Option ℚ) : Option ℚ :=
  _safe_avg (games.filterMap (fun g =>
    match team_selector g with
    | none => none
    | some team => _team_stat_for_game sdb g.pk team keywords transform))

/-- `_to_int` post-composed with the cast to `ℚ`, the shape in which integer
statistics enter the averaging helpers. -/
def _to_int_q (value : PyValue) : Option ℚ :=
  (_to_int value).map (fun n => (n : ℚ))

/-- `_team_shots_on_goal_for_game(game, team)`: shots on goal via
`SHOTS_ON_TARGET_KEYWORDS` with the `_to_int` transform. -/
def _team_shots_on_goal_for_game (sdb : List GameStatisticsRow)
    (game_pk team_pk : ℕ) : Option ℚ :=
  _team_stat_for_game sdb game_pk team_pk SHOTS_ON_TARGET_KEYWORDS _to_int_q

/-- The local `_shots_avg(games, team)` closure of `_get_game_features_raw`:
average the non-`None` shots-on-goal values over the window. -/
def _shots_avg (sdb : List GameStatisticsRow) (games : List Game)
    (team_pk : ℕ) : Option ℚ :=
  _safe_avg (games.filterMap (fun g => _team_shots_on_goal_for_game sdb g.pk team_pk))

/-- Python 3 `round(x)` to an integer: round-half-to-even. -/
def roundHalfEven (q : ℚ) : ℤ :=
  let f := ⌊q⌋
  let r := q - f
  if r < 1 / 2 then f
  else if 1 / 2 < r then f + 1
  else if f % 2 = 0 then f else f + 1

/-- Python `round(v, 4)`. -/
def pyRound4 (q : ℚ) : ℚ := (roundHalfEven (q * 10000) : ℚ) / 10000

/-- The local `_num(v)` of `_get_game_features_raw`: round to 4 decimals,
keep `None`. -/
def _num (v : Option ℚ) : Option ℚ := v.map pyRound4

/-- The raw feature row returned by `_get_game_features_raw`: every feature is
an optional numeric, the two targets are optional integers. -/
structure FeatureRow where
  home_attack_form_5 : Option ℚ
  away_attack_form_5 : Option ℚ
  home_defensive_fragility_5 : Option ℚ
  away_defensive_fragility_5 : Option ℚ
  home_shots_on_goal_avg_5 : Option ℚ
  away_shots_on_goal_avg_5 : Option ℚ
  home_attack_form_10 : Option ℚ
  away_attack_form_10 : Option ℚ
  home_defensive_fragility_10 : Option ℚ
  away_defensive_fragility_10 : Option ℚ
  home_shots_on_goal_avg_10 : Option ℚ
  away_shots_on_goal_avg_10 : Option ℚ
  h2h_total_goals_avg_3 : Option ℚ
  home_shots_total_avg_5 : Option ℚ
  away_shots_total_avg_5 : Option ℚ
  home_possession_avg_5 : Option ℚ
  away_possession_avg_5 : Option ℚ
  home_big_chances_avg_5 : Option ℚ
  away_big_chances_avg_5 : Option ℚ
  home_shots_allowed_on_target_avg_5 : Option ℚ
  away_shots_allowed_on_target_avg_5 : Option ℚ
  home_conversion_rate_5 : Option ℚ
  away_conversion_rate_5 : Option ℚ
  total_goals_actual : Option ℤ
  is_over_2_5 : Option ℤ
deriving DecidableEq, Repr

/-- `_get_game_features_raw(game, for_prediction, league_agnostic)`.
Guards first: falsy competition or kickoff → `None`; `league_agnostic=False`
→ `None`; not `for_prediction` and not finished → `None`.  Then the four venue
windows and the head-to-head window are selected with the fixture's own
`kickoff` as the cutoff, and all features are computed from them. -/
def _get_game_features_raw (db : List Game) (sdb : List GameStatisticsRow)
    (game : Game) (for_prediction : Bool) (league_agnostic : Bool) :
    Option FeatureRow :=
  match game.competition_id, game.kickoff with
  | some competition_id, some kickoff =>
    if !league_agnostic then none
    else if !for_prediction && !game.is_finished then none
    else
      let home_home_5 := _last_n_home_games db game.home_team_id kickoff competition_id 5
      let away_away_5 := _last_n_away_games db game.away_team_id kickoff competition_id 5
      let home_home_10 := _last_n_home_games db game.home_team_id kickoff competition_id 10
      let away_away_10 := _last_n_away_games db game.away_team_id kickoff competition_id 10
      let home_attack_5 := _safe_avg (home_home_5.map (fun g => ((pyOrZero g.home_goals : ℤ) : ℚ)))
      let away_attack_5 := _safe_avg (away_away_5.map (fun g => ((pyOrZero g.away_goals : ℤ) : ℚ)))
      let home_attack_10 := _safe_avg (home_home_10.map (fun g => ((pyOrZero g.home_goals : ℤ) : ℚ)))
      let away_attack_10 := _safe_avg (away_away_10.map (fun g => ((pyOrZero g.away_goals : ℤ) : ℚ)))
      let home_def_5 := _safe_avg (home_home_5.map (fun g => ((pyOrZero g.away_goals : ℤ) : ℚ)))
      let away_def_5 := _safe_avg (away_away_5.map (fun g => ((pyOrZero g.home_goals : ℤ) : ℚ)))
      let home_def_10 := _safe_avg (home_home_10.map (fun g => ((pyOrZero g.away_goals : ℤ) : ℚ)))
      let away_def_10 := _safe_avg (away_away_10.map (fun g => ((pyOrZero g.home_goals : ℤ) : ℚ)))
      let home_shots_5 := _shots_avg sdb home_home_5 game.home_team_id
      let away_shots_5 := _shots_avg sdb away_away_5 game.away_team_id
      let home_shots_10 := _shots_avg sdb home_home_10 game.home_team_id
      let away_shots_10 := _shots_avg sdb away_away_10 game.away_team_id
      let h2h_games := _last_n_h2h db game.home_team_id game.away_team_id kickoff competition_id 3
      let h2h_avg := _safe_avg (h2h_games.map (fun g =>
        ((pyOrZero g.home_goals + pyOrZero g.away_goals : ℤ) : ℚ)))
      let total_goals : Option ℤ :=
        if game.is_finished then some (pyOrZero game.home_goals + pyOrZero game.away_goals)
        else none
      let is_over_2_5 : Option ℤ :=
        match total_goals with
        | some t => some (if (t : ℚ) > 5 / 2 then 1 else 0)
        | none => none
      let home_total_shots_5 := _team_stat_avg sdb home_home_5
        (fun g => some g.home_team_id) SHOTS_TOTAL_KEYWORDS _to_float
      let away_total_shots_5 := _team_stat_avg sdb away_away_5
        (fun g => some g.away_team_id) SHOTS_TOTAL_KEYWORDS _to_float
      let home_possession_5 := _team_stat_avg sdb home_home_5
        (fun g => some g.home_team_id) POSSESSION_KEYWORDS _to_float
      let away_possession_5 := _team_stat_avg sdb away_away_5
        (fun g => some g.away_team_id) POSSESSION_KEYWORDS _to_float
      let home_big_chances_5 := _team_stat_avg sdb home_home_5
        (fun g => some g.home_team_id) BIG_CHANCES_KEYWORDS _to_float
      let away_big_chances_5 := _team_stat_avg sdb away_away_5
        (fun g => some g.away_team_id) BIG_CHANCES_KEYWORDS _to_float
      let home_allowed_sot_5 := _team_stat_avg sdb home_home_5
        (fun g => some g.away_team_id) SHOTS_ON_TARGET_KEYWORDS _to_float
      let away_allowed_sot_5 := _team_stat_avg sdb away_away_5
        (fun g => some g.home_team_id) SHOTS_ON_TARGET_KEYWORDS _to_float
      let home_conversion_rate_5 := _safe_ratio home_attack_5 home_shots_5
      let away_conversion_rate_5 := _safe_ratio away_attack_5 away_shots_5
      some {
        home_attack_form_5 := _num home_attack_5
        away_attack_form_5 := _num away_attack_5
        home_defensive_fragility_5 := _num home_def_5
        away_defensive_fragility_5 := _num away_def_5
        home_shots_on_goal_avg_5 := _num home_shots_5
        away_shots_on_goal_avg_5 := _num away_shots_5
        home_attack_form_10 := _num home_attack_10
        away_attack_form_10 := _num away_attack_10
        home_defensive_fragility_10 := _num home_def_10
        away_defensive_fragility_10 := _num away_def_10
        home_shots_on_goal_avg_10 := _num home_shots_10
        away_shots_on_goal_avg_10 := _num away_shots_10
        h2h_total_goals_avg_3 := _num h2h_avg
        home_shots_total_avg_5 := _num home_total_shots_5
        away_shots_total_avg_5 := _num away_total_shots_5
        home_possession_avg_5 := _num home_possession_5
        away_possession_avg_5 := _num away_possession_5
        home_big_chances_avg_5 := _num home_big_chances_5
        away_big_chances_avg_5 := _num away_big_chances_5
        home_shots_allowed_on_target_avg_5 := _num home_allowed_sot_5
        away_shots_allowed_on_target_avg_5 := _num away_allowed_sot_5
        home_conversion_rate_5 := _num home_conversion_rate_5
        away_conversion_rate_5 := _num away_conversion_rate_5
        total_goals_actual := total_goals
        is_over_2_5 := is_over_2_5 }
  | _, _ => none

/-! ## Feature column lists (`ml_gemini/features.py`) -/

/-- The 13 core (non-extended) feature columns. -/
def POISSON_FEATURE_COLUMNS : List String :=
  ["home_attack_form_5", "away_attack_form_5",
   "home_defensive_fragility_5", "away_defensive_fragility_5",
   "home_shots_on_goal_avg_5", "away_shots_on_goal_avg_5",
   "home_attack_form_10", "away_attack_form_10",
   "home_defensive_fragility_10", "away_defensive_fragility_10",
   "home_shots_on_goal_avg_10", "away_shots_on_goal_avg_10",
   "h2h_total_goals_avg_3"]

def POISSON_TARGET_COLUMN : String := "total_goals_actual"

/-- The extended (xG-style) feature columns. -/
def XG_FEATURE_COLUMNS : List String :=
  ["home_shots_total_avg_5",
   "away_shots_total_avg_5",
   "home_possession_avg_5",
   "away_possession_avg_5",
   "home_big_chances_avg_5",
   "away_big_chances_avg_5",
   "home_shots_allowed_on_target_avg_5",
   "away_shots_allowed_on_target_avg_5",
   "home_conversion_rate_5",
   "away_conversion_rate_5"]

/-- Python `list(dict.fromkeys(...))`: deduplicate keeping first occurrences. -/
def dedupKeepFirst (l : List String) : List String :=
  l.foldl (fun acc x => if acc.contains x then acc else acc ++ [x]) []

/-- `XG_INPUT_COLUMNS = list(dict.fromkeys(XG_FEATURE_COLUMNS + POISSON_FEATURE_COLUMNS))`
from `ml_gemini/xg_classifier.py`. -/
def XG_INPUT_COLUMNS : List String :=
  dedupKeepFirst (XG_FEATURE_COLUMNS ++ POISSON_FEATURE_COLUMNS)

/-! ## Dataset loading (`ml_gemini/poisson_model.py`, `ml_gemini/xg_classifier.py`)

A loaded CSV is a header plus rows.  A cell is the value after
`pd.to_numeric(..., errors="coerce")`: `none` where the CSV field was empty or
non-numeric (pandas `NaN`), `some q` otherwise.  Row cells are an association
list keyed by column name. -/

/-- A parsed CSV dataset. -/
structure Csv where
  header : List String
  rows : List (List (String × Option ℚ))
deriving DecidableEq, Repr

/-- Cell access for one row (absent column behaves as missing). -/
def getCell (row : List (String × Option ℚ)) (c : String) : Option ℚ :=
  match row.find? (fun p => p.1 == c) with
  | some p => p.2
  | none => none

/-- `fillna(0.0)` on a cell. -/
def fillZero (v : Option ℚ) : ℚ := v.getD 0

/-- The feature matrix row extracted in `poisson_model.load_dataset` /
`load_dataset_for_validation`: the 13 core columns, missing values imputed
to `0.0`. -/
def pmFeatureVector (row : List (String × Option ℚ)) : List ℚ :=
  POISSON_FEATURE_COLUMNS.map (fun c => fillZero (getCell row c))

/-- `df[target].clip(lower=0).astype(int)` on one cell (the row has already
passed the `dropna` filter, so the cell is present). -/
def pmTargetValue (row : List (String × Option ℚ)) : ℤ :=
  pyTrunc (max ((getCell row POISSON_TARGET_COLUMN).getD 0) 0)

namespace poisson_model

/-- `load_dataset(csv_path)` from `ml_gemini/poisson_model.py` (after the file
has been read): validate that each of the 13 feature columns and the target
column is present (first absent column raises `ValueError`), drop rows with a
missing target, impute missing feature values with `0.0`, clip the target to
non-negative integers. -/
def load_dataset (csv : Csv) : Except String (List (List ℚ) × List ℤ) :=
  match (POISSON_FEATURE_COLUMNS ++ [POISSON_TARGET_COLUMN]).find?
      (fun c => !(csv.header.contains c)) with
  | some c => .error ("Missing column: " ++ c)
  | none =>
      let kept := csv.rows.filter (fun row => (getCell row POISSON_TARGET_COLUMN).isSome)
      .ok (kept.map pmFeatureVector, kept.map pmTargetValue)

/-- The split dataset returned by `load_dataset_for_validation`. -/
structure PmSplit where
  X_train : List (List ℚ)
  y_train : List ℤ
  X_test : List (List ℚ)
  y_test : List ℤ
  y_test_over25 : List ℤ
deriving DecidableEq, Repr

/-- The rows kept by `load_dataset_for_validation` after
`dropna(subset=[target, "is_over_2_5"])`. -/
def usableRows (csv : Csv) : List (List (String × Option ℚ)) :=
  csv.rows.filter (fun row =>
    (getCell row POISSON_TARGET_COLUMN).isSome && (getCell row "is_over_2_5").isSome)

/-- `load_dataset_for_validation(csv_path, train_ratio)`: column validation as
in `load_dataset` plus `is_over_2_5`, drop rows missing either target, then a
chronological split at `split_idx = int(n * train_ratio)`, raising
`ValueError` when `split_idx == 0 or split_idx >= n`. -/
def load_dataset_for_validation (csv : Csv) (train_ratio : ℚ) :
    Except String PmSplit :=
  match (POISSON_FEATURE_COLUMNS ++ [POISSON_TARGET_COLUMN, "is_over_2_5"]).find?
      (fun c => !(csv.header.contains c)) with
  | some c => .error ("Missing column: " ++ c)
  | none =>
      let kept := usableRows csv
      let n := kept.length
      let split_idx := pyTrunc ((n : ℚ) * train_ratio)
      if split_idx = 0 ∨ (n : ℤ) ≤ split_idx then
        .error "Dataset too small for 80/20 split."
      else
        let train_df := kept.take split_idx.toNat
        let test_df := kept.drop split_idx.toNat
        .ok { X_train := train_df.map pmFeatureVector
              y_train := train_df.map pmTargetValue
              X_test := test_df.map pmFeatureVector
              y_test := test_df.map pmTargetValue
              y_test_over25 := test_df.map (fun row =>
                pyTrunc ((getCell row "is_over_2_5").getD 0)) }

/-- Modelled from the spec: `train_poisson_model` fits an XGBoost
count-regression model — an external library call whose internals are outside
this repository — so the trained artifact is represented by the dataset it was
fitted on. -/
structure TrainedPoisson where
  X : List (List ℚ)
  y : List ℤ
deriving DecidableEq, Repr

def train_poisson_model (X : List (List ℚ)) (y : List ℤ) : TrainedPoisson :=
  ⟨X, y⟩

/-- The `train_gemini_poisson` command body: load, then train.  A load error
aborts before any training. -/
def train_pipeline (csv : Csv) : Except String TrainedPoisson :=
  match load_dataset csv with
  | .error e => .error e
  | .ok p => .ok (train_poisson_model p.1 p.2)

/-- The `validate_gemini_poisson` command body: split-load, then train on the
training partition.  A load/split error aborts before any training. -/
def validation_pipeline (csv : Csv) (train_ratio : ℚ) : Except String TrainedPoisson :=
  match load_dataset_for_validation csv train_ratio with
  | .error e => .error e
  | .ok s => .ok (train_poisson_model s.X_train s.y_train)

/-- Python `x or 0.0` on a nullable float. -/
def pyOrZeroQ (v : Option ℚ) : ℚ :=
  match v with
  | none => 0
  | some x => x

/-- Python `dict.get(col, 0.0)` on a feature dict whose values are nullable
floats: an absent key yields the default `0.0`. -/
def dictGet (d : List (String × Option ℚ)) (c : String) : Option ℚ :=
  match d.find? (fun p => p.1 == c) with
  | some p => p.2
  | none => some 0

/-- The model-input row built in `predict_lambda_for_game` (and
`predict_lambdas_for_games`):
`{col: row_raw.get(col, 0.0) or 0.0 for col in POISSON_FEATURE_COLUMNS}`. -/
def predictInputRow (row_raw : List (String × Option ℚ)) : List ℚ :=
  POISSON_FEATURE_COLUMNS.map (fun col => pyOrZeroQ (dictGet row_raw col))

end poisson_model

/-- The Python dict literal returned by `_get_game_features_raw`, in source
order (the integer targets enter the shared numeric value space). -/
def FeatureRow.toDict (r : FeatureRow) : List (String × Option ℚ) :=
  [("home_attack_form_5", r.home_attack_form_5),
   ("away_attack_form_5", r.away_attack_form_5),
   ("home_defensive_fragility_5", r.home_defensive_fragility_5),
   ("away_defensive_fragility_5", r.away_defensive_fragility_5),
   ("home_shots_on_goal_avg_5", r.home_shots_on_goal_avg_5),
   ("away_shots_on_goal_avg_5", r.away_shots_on_goal_avg_5),
   ("home_attack_form_10", r.home_attack_form_10),
   ("away_attack_form_10", r.away_attack_form_10),
   ("home_defensive_fragility_10", r.home_defensive_fragility_10),
   ("away_defensive_fragility_10", r.away_defensive_fragility_10),
   ("home_shots_on_goal_avg_10", r.home_shots_on_goal_avg_10),
   ("away_shots_on_goal_avg_10", r.away_shots_on_goal_avg_10),
   ("h2h_total_goals_avg_3", r.h2h_total_goals_avg_3),
   ("home_shots_total_avg_5", r.home_shots_total_avg_5),
   ("away_shots_total_avg_5", r.away_shots_total_avg_5),
   ("home_possession_avg_5", r.home_possession_avg_5),
   ("away_possession_avg_5", r.away_possession_avg_5),
   ("home_big_chances_avg_5", r.home_big_chances_avg_5),
   ("away_big_chances_avg_5", r.away_big_chances_avg_5),
   ("home_shots_allowed_on_target_avg_5", r.home_shots_allowed_on_target_avg_5),
   ("away_shots_allowed_on_target_avg_5", r.away_shots_allowed_on_target_avg_5),
   ("home_conversion_rate_5", r.home_conversion_rate_5),
   ("away_conversion_rate_5", r.away_conversion_rate_5),
   ("total_goals_actual", r.total_goals_actual.map (fun n => (n : ℚ))),
   ("is_over_2_5", r.is_over_2_5.map (fun n => (n : ℚ)))]

namespace xg_classifier

def TARGET_COLUMN : String := "is_over_2_5"

/-- Python `feature_columns or XG_INPUT_COLUMNS`: `None` and the empty list
are falsy. -/
def resolvedColumns (feature_columns : Option (List String)) : List String :=
  match feature_columns with
  | none => XG_INPUT_COLUMNS
  | some [] => XG_INPUT_COLUMNS
  | some l => l

/-- `xg_classifier.load_dataset(csv_path, feature_columns)` (after the file has
been read): collect the required columns absent from the header (the Python
`set` iteration order is unspecified; only emptiness decides whether loading
aborts), raise if any, then drop rows with a missing target, truncate the
target to `int`, impute missing feature values with `0.0`. -/
def load_dataset (csv : Csv) (feature_columns : Option (List String)) :
    Except String (List (List ℚ) × List ℤ) :=
  let features := resolvedColumns feature_columns
  let missing := (dedupKeepFirst (features ++ [TARGET_COLUMN])).filter
    (fun c => !(csv.header.contains c))
  if !missing.isEmpty then
    .error ("Missing column(s) in dataset: " ++ String.intercalate ", " missing)
  else
    let kept := csv.rows.filter (fun row => (getCell row TARGET_COLUMN).isSome)
    .ok (kept.map (fun row => features.map (fun c => fillZero (getCell row c))),
         kept.map (fun row => pyTrunc ((getCell row TARGET_COLUMN).getD 0)))

/-- The split returned by `xg_classifier.load_dataset_split`. -/
structure XgSplit where
  X_train : List (List ℚ)
  y_train : List ℤ
  X_test : List (List ℚ)
  y_test : List ℤ
deriving DecidableEq, Repr

/-- `load_dataset_split(csv_path, train_ratio, feature_columns)`: load, then a
chronological split at `split_idx = int(n * train_ratio)`, raising
`ValueError` when `split_idx <= 0 or split_idx >= n`. -/
def load_dataset_split (csv : Csv) (train_ratio : ℚ)
    (feature_columns : Option (List String)) : Except String XgSplit :=
  match load_dataset csv feature_columns with
  | .error e => .error e
  | .ok p =>
      let n := p.1.length
      let split_idx := pyTrunc ((n : ℚ) * train_ratio)
      if split_idx ≤ 0 ∨ (n : ℤ) ≤ split_idx then
        .error "Dataset too small for requested train/test split."
      else
        .ok { X_train := p.1.take split_idx.toNat
              y_train := p.2.take split_idx.toNat
              X_test := p.1.drop split_idx.toNat
              y_test := p.2.drop split_idx.toNat }

/-- Modelled from the spec: `train_classifier` fits a scikit-learn logistic
regression — an external library call — so the trained artifact is
represented by the dataset it was fitted on. -/
structure TrainedClassifier where
  X : List (List ℚ)
  y : List ℤ
deriving DecidableEq, Repr

def train_classifier (X : List (List ℚ)) (y : List ℤ) : TrainedClassifier :=
  ⟨X, y⟩

/-- The `train_gemini_xg_classifier` command body: split-load, then train on
the training partition.  A load/split error aborts before any training. -/
def train_pipeline (csv : Csv) (train_ratio : ℚ)
    (feature_columns : Option (List String)) : Except String TrainedClassifier :=
  match load_dataset_split csv train_ratio feature_columns with
  | .error e => .error e
  | .ok s => .ok (train_classifier s.X_train s.y_train)

end xg_classifier

/-! ## Concrete fixtures

A small concrete database used by witnesses and scenario checks: team 1 has
exactly three finished home fixtures in competition 1 before timestamp 100
(scoring 1, 2 and 0 goals at home), one LIVE fixture (excluded by status), and
`gWTarget` is the fixture being featurized (kickoff 100). -/

def gW1 : Game := ⟨1, 1, 9, some 1, some 10, .FT, some 1, some 0⟩

def gW2 : Game := ⟨2, 1, 8, some 1, some 20, .FT, some 2, some 2⟩

def gW3 : Game := ⟨3, 1, 7, some 1, some 30, .FT, some 0, some 1⟩

def gWLive : Game := ⟨4, 1, 6, some 1, some 40, .LIVE, none, none⟩

def gWTarget : Game := ⟨10, 1, 2, some 1, some 100, .FT, some 2, some 1⟩

def dbW : List Game := [gW2, gWLive, gW1, gW3, gWTarget]

/-- The feature row `_get_game_features_raw` computes for `gWTarget` over `dbW`
with an empty statistics store. -/
def rowW : FeatureRow :=
  { home_attack_form_5 := some 1
    away_attack_form_5 := none
    home_defensive_fragility_5 := some 1
    away_defensive_fragility_5 := none
    home_shots_on_goal_avg_5 := none
    away_shots_on_goal_avg_5 := none
    home_attack_form_10 := some 1
    away_attack_form_10 := none
    home_defensive_fragility_10 := some 1
    away_defensive_fragility_10 := none
    home_shots_on_goal_avg_10 := none
    away_shots_on_goal_avg_10 := none
    h2h_total_goals_avg_3 := none
    home_shots_total_avg_5 := none
    away_shots_total_avg_5 := none
    home_possession_avg_5 := none
    away_possession_avg_5 := none
    home_big_chances_avg_5 := none
    away_big_chances_avg_5 := none
    home_shots_allowed_on_target_avg_5 := none
    away_shots_allowed_on_target_avg_5 := none
    home_conversion_rate_5 := none
    away_conversion_rate_5 := none
    total_goals_actual := some 3
    is_over_2_5 := some 1 }

/-! ## Theorems -/

/-- A member of a filter-sort-truncate window satisfies the filter predicate. -/
theorem mem_window {p : Game → Bool} {db : List Game} {n : ℕ} {g : Game}
    (hg : g ∈ ((db.filter p).insertionSort kickoffDesc).take n) : p g = true := by
  have h1 : g ∈ (db.filter p).insertionSort kickoffDesc := List.mem_of_mem_take hg
  have h2 : g ∈ db.filter p :=
    (List.perm_insertionSort kickoffDesc (db.filter p)).mem_iff.mp h1
  exact (List.mem_filter.mp h2).2

/-- A filter-sort-truncate window is kickoff-descending. -/
theorem window_sorted (l : List Game) (n : ℕ) :
    ((l.insertionSort kickoffDesc).take n).Pairwise kickoffDesc :=
  List.Pairwise.sublist (List.take_sublist n _)
    (List.sorted_insertionSort kickoffDesc l)

/-- `kickoff__lt` membership unpacks to a strict timestamp bound. -/
theorem kickoffLt_parts {g : Game} {cutoff : ℤ}
    (hk : kickoffLt g cutoff = true) : ∃ k, g.kickoff = some k ∧ k < cutoff := by
  unfold kickoffLt at hk
  cases hkick : g.kickoff with
  | none => rw [hkick] at hk; exact absurd hk (by simp)
  | some k => rw [hkick] at hk; exact ⟨k, rfl, by simpa using hk⟩

/-- Claim C1: for every target fixture, the feature extractor passes the
fixture's own kickoff timestamp as the window cutoff, and for all
(team, competition, cutoff, n) the window selectors return only fixtures with
kickoff strictly less than the cutoff, with finished status, in the same
competition, at most `n` of them, ordered by kickoff descending. -/
theorem window_selector_no_leakage (db : List Game) (team_id other_id : ℕ)
    (cutoff : ℤ) (competition_id n : ℕ) :
    (∀ g ∈ _last_n_home_games db team_id cutoff competition_id n,
        g.home_team_id = team_id ∧ g.competition_id = some competition_id ∧
        (∃ k, g.kickoff = some k ∧ k < cutoff) ∧ g.status ∈ FINISHED_STATUSES) ∧
    (∀ g ∈ _last_n_away_games db team_id cutoff competition_id n,
        g.away_team_id = team_id ∧ g.competition_id = some competition_id ∧
        (∃ k, g.kickoff = some k ∧ k < cutoff) ∧ g.status ∈ FINISHED_STATUSES) ∧
    (∀ g ∈ _last_n_h2h db team_id other_id cutoff competition_id n,
        ((g.home_team_id = team_id ∧ g.away_team_id = other_id) ∨
          (g.home_team_id = other_id ∧ g.away_team_id = team_id)) ∧
        g.competition_id = some competition_id ∧
        (∃ k, g.kickoff = some k ∧ k < cutoff) ∧ g.status ∈ FINISHED_STATUSES) ∧
    (_last_n_home_games db team_id cutoff competition_id n).length ≤ n ∧
    (_last_n_away_games db team_id cutoff competition_id n).length ≤ n ∧
    (_last_n_h2h db team_id other_id cutoff competition_id n).length ≤ n ∧
    (_last_n_home_games db team_id cutoff competition_id n).Pairwise kickoffDesc ∧
    (_last_n_away_games db team_id cutoff competition_id n).Pairwise kickoffDesc ∧
    (_last_n_h2h db team_id other_id cutoff competition_id n).Pairwise kickoffDesc ∧
    (∀ (sdb : List GameStatisticsRow) (game : Game) (cid : ℕ) (k : ℤ)
        (fp la : Bool) (row : FeatureRow),
        game.competition_id = some cid → game.kickoff = some k →
        _get_game_features_raw db sdb game fp la = some row →
        row.home_attack_form_5 = _num (_safe_avg
          ((_last_n_home_games db game.home_team_id k cid 5).map
            (fun g => ((pyOrZero g.home_goals : ℤ) : ℚ)))) ∧
        row.away_attack_form_5 = _num (_safe_avg
          ((_last_n_away_games db game.away_team_id k cid 5).map
            (fun g => ((pyOrZero g.away_goals : ℤ) : ℚ)))) ∧
        row.home_attack_form_10 = _num (_safe_avg
          ((_last_n_home_games db game.home_team_id k cid 10).map
            (fun g => ((pyOrZero g.home_goals : ℤ) : ℚ)))) ∧
        row.away_attack_form_10 = _num (_safe_avg
          ((_last_n_away_games db game.away_team_id k cid 10).map
            (fun g => ((pyOrZero g.away_goals : ℤ) : ℚ)))) ∧
        row.h2h_total_goals_avg_3 = _num (_safe_avg
          ((_last_n_h2h db game.home_team_id game.away_team_id k cid 3).map
            (fun g => ((pyOrZero g.home_goals + pyOrZero g.away_goals : ℤ) : ℚ))))) := by
  refine ⟨?_, ?_, ?_, ?_, ?_, ?_, ?_, ?_, ?_, ?_⟩
  · intro g hg
    unfold _last_n_home_games at hg
    have hp := mem_window hg
    simp only [Bool.and_eq_true, beq_iff_eq] at hp
    exact ⟨hp.1.1.1, hp.1.1.2, kickoffLt_parts hp.1.2, by simpa using hp.2⟩
  · intro g hg
    unfold _last_n_away_games at hg
    have hp := mem_window hg
    simp only [Bool.and_eq_true, beq_iff_eq] at hp
    exact ⟨hp.1.1.1, hp.1.1.2, kickoffLt_parts hp.1.2, by simpa using hp.2⟩
  · intro g hg
    unfold _last_n_h2h at hg
    have hp := mem_window hg
    simp only [Bool.and_eq_true, Bool.or_eq_true, beq_iff_eq] at hp
    exact ⟨hp.1.1.1, hp.1.1.2, kickoffLt_parts hp.1.2, by simpa using hp.2⟩
  · exact List.length_take_le n _
  · exact List.length_take_le n _
  · exact List.length_take_le n _
  · exact window_sorted _ n
  · exact window_sorted _ n
  · exact window_sorted _ n
  · intro sdb game cid k fp la row hcid hk hrow
    unfold _get_game_features_raw at hrow
    simp only [hcid, hk] at hrow
    cases la with
    | false => simp at hrow
    | true =>
      simp only [Bool.not_true, Bool.false_eq_true, if_false] at hrow
      by_cases hfin : (!fp && !game.is_finished) = true
      · rw [if_pos hfin] at hrow
        cases hrow
      · rw [if_neg hfin] at hrow
        injection hrow with h
        subst h
        exact ⟨rfl, rfl, rfl, rfl, rfl⟩

/-- Witness for C1: a member of a concrete window satisfies the guarantees, and
the extractor's output over the concrete database uses the target fixture's own
kickoff (100) as the cutoff. -/
theorem window_selector_no_leakage_witness :
    (gW3.home_team_id = 1 ∧ gW3.competition_id = some 1 ∧
      (∃ k, gW3.kickoff = some k ∧ k < 100) ∧ gW3.status ∈ FINISHED_STATUSES) ∧
    rowW.home_attack_form_5 = _num (_safe_avg
      ((_last_n_home_games dbW 1 100 1 5).map (fun g => ((pyOrZero g.home_goals : ℤ) : ℚ)))) := by
  obtain ⟨hA, -, -, -, -, -, -, -, -, hJ⟩ := window_selector_no_leakage dbW 1 2 100 1 5
  refine ⟨hA gW3 (by decide), ?_⟩
  exact (hJ [] gWTarget 1 100 false true rowW rfl rfl (by
    norm_num [_get_game_features_raw, _last_n_home_games, _last_n_away_games, _last_n_h2h,
      List.insertionSort, List.orderedInsert, kickoffDesc, kickoffLt,
      Game.is_finished, FINISHED_STATUSES, dbW, gW1, gW2, gW3, gWLive, gWTarget, rowW,
      _safe_avg, _shots_avg, _team_stat_avg, _team_stat_for_game,
      _team_shots_on_goal_for_game, _statistics_payload, _stat_value,
      _safe_ratio, _num, pyRound4, roundHalfEven, pyOrZero, List.filter])).1

/-- Claim C2: for every `k` and `lambda`, `poisson_pmf(k, lambda)` returns `0`
if `lambda < 0`, `k < 0`, or `k > 100`, and otherwise returns
`lambda^k * e^(-lambda) / k!`. -/
theorem poisson_pmf_spec (k : ℤ) (lam : ℝ) :
    ((lam < 0 ∨ k < 0 ∨ k > 100) → poisson_pmf k lam = 0) ∧
    (¬(lam < 0 ∨ k < 0 ∨ k > 100) →
      poisson_pmf k lam = lam ^ k.toNat * Real.exp (-lam) / (Nat.factorial k.toNat)) := by
  constructor
  · intro h
    unfold poisson_pmf
    rcases h with h | h | h
    · rw [if_pos (Or.inl h)]
    · rw [if_pos (Or.inr h)]
    · by_cases h2 : lam < 0 ∨ k < 0
      · rw [if_pos h2]
      · rw [if_neg h2, if_pos h]
  · intro h
    push_neg at h
    unfold poisson_pmf
    rw [if_neg, if_neg]
    · exact not_lt.mpr h.2.2
    · push_neg
      exact ⟨h.1, h.2.1⟩

/-- Witness for C2: both branches of `poisson_pmf_spec` at concrete inputs. -/
theorem poisson_pmf_spec_witness :
    poisson_pmf 101 1 = 0 ∧
    poisson_pmf 2 1 =
      (1 : ℝ) ^ (2 : ℤ).toNat * Real.exp (-1) / (Nat.factorial (2 : ℤ).toNat) := by
  constructor
  · exact (poisson_pmf_spec 101 1).1 (by norm_num)
  · exact (poisson_pmf_spec 2 1).2 (by norm_num)

/-- Claim C3: for every `lambda >= 0`, `prob_over_2_5(lambda)` equals
`1 - (poisson_pmf(0,lambda) + poisson_pmf(1,lambda) + poisson_pmf(2,lambda))`,
and `p0 + p1 + p2 + prob_over_2_5(lambda)` equals `1` (exactly, hence within
the floating tolerance `1e-9`). -/
theorem prob_over_2_5_complement (lam : ℝ) (h : 0 ≤ lam) :
    prob_over_2_5 lam =
      1 - (poisson_pmf 0 lam + poisson_pmf 1 lam + poisson_pmf 2 lam) ∧
    poisson_pmf 0 lam + poisson_pmf 1 lam + poisson_pmf 2 lam + prob_over_2_5 lam = 1 ∧
    |poisson_pmf 0 lam + poisson_pmf 1 lam + poisson_pmf 2 lam + prob_over_2_5 lam - 1|
      ≤ 1 / 1000000000 := by
  refine ⟨rfl, ?_, ?_⟩
  · unfold prob_over_2_5
    ring
  · have hsum :
        poisson_pmf 0 lam + poisson_pmf 1 lam + poisson_pmf 2 lam + prob_over_2_5 lam = 1 := by
      unfold prob_over_2_5
      ring
    rw [hsum]
    norm_num

/-- Witness for C3 at `lambda = 0`. -/
theorem prob_over_2_5_complement_witness :
    prob_over_2_5 0 =
      1 - (poisson_pmf 0 0 + poisson_pmf 1 0 + poisson_pmf 2 0) ∧
    poisson_pmf 0 0 + poisson_pmf 1 0 + poisson_pmf 2 0 + prob_over_2_5 0 = 1 ∧
    |poisson_pmf 0 0 + poisson_pmf 1 0 + poisson_pmf 2 0 + prob_over_2_5 0 - 1|
      ≤ 1 / 1000000000 :=
  prob_over_2_5_complement 0 (le_refl 0)

/-- Claim C10: for every `lambda < 0`, all three guarded pmf terms return `0`,
so `prob_over_2_5(lambda)` returns exactly `1.0` — a negative lambda is
silently reported as certainty of Over 2.5. -/
theorem prob_over_2_5_neg_lambda (lam : ℝ) (h : lam < 0) :
    poisson_pmf 0 lam = 0 ∧ poisson_pmf 1 lam = 0 ∧ poisson_pmf 2 lam = 0 ∧
    prob_over_2_5 lam = 1 := by
  have hp : ∀ k : ℤ, poisson_pmf k lam = 0 := by
    intro k
    unfold poisson_pmf
    rw [if_pos (Or.inl h)]
  refine ⟨hp 0, hp 1, hp 2, ?_⟩
  unfold prob_over_2_5
  rw [hp 0, hp 1, hp 2]
  norm_num

/-- Witness for C10 at `lambda = -1`. -/
theorem prob_over_2_5_neg_lambda_witness :
    poisson_pmf 0 (-1) = 0 ∧ poisson_pmf 1 (-1) = 0 ∧ poisson_pmf 2 (-1) = 0 ∧
    prob_over_2_5 (-1) = 1 :=
  prob_over_2_5_neg_lambda (-1) (by norm_num)

/-- Shared evaluation of the extractor over the concrete database. -/
theorem features_raw_dbW_eval :
    _get_game_features_raw dbW [] gWTarget false true = some rowW := by
  norm_num [_get_game_features_raw, _last_n_home_games, _last_n_away_games, _last_n_h2h,
    List.insertionSort, List.orderedInsert, kickoffDesc, kickoffLt,
    Game.is_finished, FINISHED_STATUSES, dbW, gW1, gW2, gW3, gWLive, gWTarget, rowW,
    _safe_avg, _shots_avg, _team_stat_avg, _team_stat_for_game,
    _team_shots_on_goal_for_game, _statistics_payload, _stat_value,
    _safe_ratio, _num, pyRound4, roundHalfEven, pyOrZero, List.filter]

/-- Claim C4: an average over an empty or all-missing collection of windowed
values is `None`, never zero; when fewer than `n` qualifying fixtures exist
the average uses exactly the available fixtures without zero-padding
(scenario: 3 prior home fixtures with goals 1, 2, 0 under a window request of
`n = 5` give `attack_form_5 = 1.0`). -/
theorem averaging_never_zero_pads :
    (∀ values : List ℚ,
        (_safe_avg values = none ↔ values = []) ∧
        (values ≠ [] → _safe_avg values = some (values.sum / values.length))) ∧
    (∀ (sdb : List GameStatisticsRow) (games : List Game) (team_pk : ℕ),
        (∀ g ∈ games, _team_shots_on_goal_for_game sdb g.pk team_pk = none) →
        _shots_avg sdb games team_pk = none) ∧
    (∀ (sdb : List GameStatisticsRow) (games : List Game)
        (sel : Game → Option ℕ) (kw : List String) (tr : PyValue → Option ℚ),
        (∀ g ∈ games, ∀ t, sel g = some t → _team_stat_for_game sdb g.pk t kw tr = none) →
        _team_stat_avg sdb games sel kw tr = none) ∧
    ((_last_n_home_games dbW 1 100 1 5).length = 3 ∧
      (_last_n_home_games dbW 1 100 1 5).map (fun g => pyOrZero g.home_goals) = [0, 2, 1] ∧
      (_get_game_features_raw dbW [] gWTarget false true).map
        FeatureRow.home_attack_form_5 = some (some 1)) := by
  refine ⟨?_, ?_, ?_, ?_⟩
  · intro values
    cases values with
    | nil => simp [_safe_avg]
    | cons a t => simp [_safe_avg]
  · intro sdb games team_pk hall
    unfold _shots_avg
    rw [List.filterMap_eq_nil_iff.mpr (fun g hg => hall g hg)]
    simp [_safe_avg]
  · intro sdb games sel kw tr hall
    unfold _team_stat_avg
    rw [List.filterMap_eq_nil_iff.mpr ?_]
    · simp [_safe_avg]
    · intro g hg
      cases hsel : sel g with
      | none => rfl
      | some t => simpa using hall g hg t hsel
  · refine ⟨by decide, by decide, ?_⟩
    rw [features_raw_dbW_eval]
    rfl

/-- Witness for C4 at concrete inputs. -/
theorem averaging_never_zero_pads_witness :
    _safe_avg [1, 2, 0] = some 1 ∧
    _shots_avg [] [gW1] 1 = none ∧
    _team_stat_avg [] [gW1] (fun g => some g.home_team_id) SHOTS_TOTAL_KEYWORDS _to_float = none := by
  obtain ⟨hA, hB, hC, -⟩ := averaging_never_zero_pads
  refine ⟨?_, ?_, ?_⟩
  · rw [(hA [1, 2, 0]).2 (by simp)]
    norm_num
  · exact hB [] [gW1] 1 (by decide)
  · exact hC [] [gW1] (fun g => some g.home_team_id) SHOTS_TOTAL_KEYWORDS _to_float
      (by intro g hg t ht; simp at hg; subst hg; simp at ht; subst ht; decide)

/-- Claim C5 counterexample: on the string value `"%5"` the source's coercion
`_to_float` removes the non-trailing `%` and parses `5.0`, while the claimed
strip-a-trailing-`%`-then-parse coercion (`to_float_spec`) yields `None` —
the claim's description of the coercion is false on the code. -/
theorem stat_coercion_counterexample :
    _to_float (.vStr "%5") = some 5 ∧
    to_float_spec (.vStr "%5") = none ∧
    ¬ _to_float (.vStr "%5") = to_float_spec (.vStr "%5") := by
  refine ⟨?_, ?_, ?_⟩
  · simp +decide [_to_float, pyStrip, pyFloatLit, digitsToNat, digitVal]
  · decide
  · simp +decide [_to_float, to_float_spec, pyStrip, pyFloatLit, digitsToNat, digitVal]

/-- Claim C5 (amended): statistic lookup returns the value of the first entry
whose type label contains (case-insensitive substring) any keyword in the
given set, else missing; numeric coercion removes **every** `'%'` character
(not only a trailing one) and parses the remainder as a float, yielding `None`
for unparsable or missing values (so `[{"type": "Total Shots", "value":
"12"}]` queried with shots-on-goal keywords yields `None`, not `0`). -/
theorem stat_value_first_match_and_coercion :
    (∀ (stats : List StatItem) (keywords : List String) (pre post : List StatItem)
        (item : StatItem),
        stats = pre ++ item :: post →
        (∀ j ∈ pre, statTypeMatches j (keywords.map (fun k => pyLower k.data)) = false) →
        statTypeMatches item (keywords.map (fun k => pyLower k.data)) = true →
        _stat_value stats keywords = item.value) ∧
    (∀ (stats : List StatItem) (keywords : List String),
        (∀ j ∈ stats, statTypeMatches j (keywords.map (fun k => pyLower k.data)) = false) →
        _stat_value stats keywords = .vNone) ∧
    (∀ s : String, _to_float (.vStr s) =
        (let v := (pyStrip s.data).filter (fun c => c ≠ '%')
         if v.isEmpty then none else pyFloatLit v)) ∧
    _to_float (.vStr "55%") = some 55 ∧
    _to_float (.vStr "5%5") = some 55 ∧
    _to_float (.vStr "abc") = none ∧
    _to_float .vNone = none ∧
    _to_float (_stat_value [⟨some "Total Shots", .vStr "12"⟩] SHOTS_ON_TARGET_KEYWORDS)
      = none := by
  refine ⟨?_, ?_, fun s => rfl, ?_, ?_, by decide, rfl, by decide⟩
  · intro stats keywords pre post item hstats hpre hitem
    subst hstats
    unfold _stat_value
    rw [if_neg (by simp)]
    show (match List.find?
        (fun it => statTypeMatches it (List.map (fun k => pyLower k.data) keywords))
        (pre ++ item :: post) with
      | some it => it.value
      | none => PyValue.vNone) = item.value
    rw [List.find?_append,
      List.find?_eq_none.mpr (fun j hj => by simp [hpre j hj]),
      Option.none_or,
      List.find?_cons_of_pos
        (p := fun it => statTypeMatches it (List.map (fun k => pyLower k.data) keywords))
        post hitem]
  · intro stats keywords hall
    unfold _stat_value
    by_cases he : stats.isEmpty
    · rw [if_pos he]
    · rw [if_neg he]
      show (match List.find?
          (fun it => statTypeMatches it (List.map (fun k => pyLower k.data) keywords))
          stats with
        | some it => it.value
        | none => PyValue.vNone) = PyValue.vNone
      rw [List.find?_eq_none.mpr (fun j hj => by simp [hall j hj])]
  · simp +decide [_to_float, pyStrip, pyFloatLit, digitsToNat, digitVal]
  · simp +decide [_to_float, pyStrip, pyFloatLit, digitsToNat, digitVal]

/-- Witness for the amended C5: first-match and no-match applications. -/
theorem stat_value_first_match_and_coercion_witness :
    _stat_value [⟨some "Total Shots", .vStr "12"⟩, ⟨some "Shots on Goal", .vStr "7"⟩]
      SHOTS_ON_TARGET_KEYWORDS = PyValue.vStr "7" ∧
    _stat_value [⟨some "Total Shots", .vStr "12"⟩] SHOTS_ON_TARGET_KEYWORDS
      = PyValue.vNone := by
  obtain ⟨hA, hB, -, -, -, -, -, -⟩ := stat_value_first_match_and_coercion
  constructor
  · exact hA _ SHOTS_ON_TARGET_KEYWORDS [⟨some "Total Shots", .vStr "12"⟩] []
      ⟨some "Shots on Goal", .vStr "7"⟩ rfl (by decide) (by decide)
  · exact hB _ SHOTS_ON_TARGET_KEYWORDS (by decide)


/-- Concrete statistics stores for the cache-staleness scenario: the same
`(game 1, team 2)` key holds shots `"10"` at first and `"7"` after an update. -/
def sdbFirst : List GameStatisticsRow :=
  [⟨1, 2, some [⟨some "Total Shots", .vStr "10"⟩]⟩]

def sdbSecond : List GameStatisticsRow :=
  [⟨1, 2, some [⟨some "Total Shots", .vStr "7"⟩]⟩]

/-- A cache hit returns the cached payload, whatever the current store holds. -/
theorem payload_cached_hit (sdb : List GameStatisticsRow) (cache : StatsCache)
    (gid tid : ℕ) (p : List StatItem)
    (h : cacheLookup cache gid tid = some p) :
    (statistics_payload_cached sdb cache gid tid).1 = p := by
  unfold statistics_payload_cached
  rw [h]

/-- One cached call never removes an existing cache entry. -/
theorem cacheLookup_cached_preserved (sdb : List GameStatisticsRow)
    (cache : StatsCache) (a b gid tid : ℕ) (p : List StatItem)
    (h : cacheLookup cache gid tid = some p) :
    cacheLookup (statistics_payload_cached sdb cache a b).2 gid tid = some p := by
  unfold statistics_payload_cached
  cases hl : cacheLookup cache a b with
  | some q => simpa using h
  | none =>
      have hne : ¬(a == gid && b == tid) = true := by
        intro he
        simp only [Bool.and_eq_true, beq_iff_eq] at he
        rw [he.1, he.2] at hl
        rw [hl] at h
        cases h
      show cacheLookup (((a, b), _statistics_payload sdb a b) :: cache) gid tid = some p
      unfold cacheLookup at h ⊢
      rw [List.find?_cons_of_neg
        (p := fun e => e.1.1 == gid && e.1.2 == tid) cache hne]
      exact h

/-- A whole batch never removes an existing cache entry. -/
theorem cacheLookup_batch_preserved (sdb : List GameStatisticsRow)
    (keys : List (ℕ × ℕ)) : ∀ (cache : StatsCache) (gid tid : ℕ) (p : List StatItem),
    cacheLookup cache gid tid = some p →
    cacheLookup (run_stats_batch sdb cache keys).2 gid tid = some p := by
  induction keys with
  | nil => intro cache gid tid p h; exact h
  | cons k rest ih =>
      intro cache gid tid p h
      unfold run_stats_batch
      exact ih _ _ _ _ (cacheLookup_cached_preserved sdb cache k.1 k.2 gid tid p h)

/-- After a cached call for a key, the key is cached. -/
theorem cacheLookup_cached_self (sdb : List GameStatisticsRow) (cache : StatsCache)
    (gid tid : ℕ) :
    ∃ p, cacheLookup (statistics_payload_cached sdb cache gid tid).2 gid tid = some p := by
  unfold statistics_payload_cached
  cases hl : cacheLookup cache gid tid with
  | some q => exact ⟨q, by simpa using hl⟩
  | none =>
      refine ⟨_statistics_payload sdb gid tid, ?_⟩
      unfold cacheLookup
      rw [List.find?_cons_of_pos _ (by simp)]

/-- Every key a batch touches is cached when the batch ends. -/
theorem cacheLookup_after_batch (sdb : List GameStatisticsRow)
    (keys : List (ℕ × ℕ)) : ∀ (cache : StatsCache) (gid tid : ℕ),
    (gid, tid) ∈ keys →
    ∃ p, cacheLookup (run_stats_batch sdb cache keys).2 gid tid = some p := by
  induction keys with
  | nil => intro _ _ _ h; cases h
  | cons k rest ih =>
      intro cache gid tid hmem
      unfold run_stats_batch
      rcases List.mem_cons.mp hmem with heq | hrest
      · obtain ⟨p, hp⟩ := cacheLookup_cached_self sdb cache gid tid
        subst heq
        exact ⟨p, cacheLookup_batch_preserved sdb rest _ gid tid p hp⟩
      · exact ih _ gid tid hrest

/-- Claim C6 counterexample: two successive feature-building batches against a
store that changed in between.  The second batch observes the first batch's
cached payload (shots `"10"`), not the store's current payload (`"7"`): the
`lru_cache` is process-global, not scoped to a single feature-building pass. -/
theorem stats_cache_counterexample :
    (run_stats_batch sdbSecond (run_stats_batch sdbFirst [] [(1, 2)]).2 [(1, 2)]).1
      = [[⟨some "Total Shots", .vStr "10"⟩]] ∧
    _statistics_payload sdbSecond 1 2 = [⟨some "Total Shots", .vStr "7"⟩] ∧
    cacheLookup (run_stats_batch sdbFirst [] [(1, 2)]).2 1 2
      = some [⟨some "Total Shots", .vStr "10"⟩] ∧
    ¬ (run_stats_batch sdbSecond (run_stats_batch sdbFirst [] [(1, 2)]).2 [(1, 2)]).1
        = [_statistics_payload sdbSecond 1 2] := by decide

/-- Claim C6 (amended): the `(fixtureId, teamId)`-keyed memoization of
statistics lookups is process-global, not feature-pass-scoped: the module-level
`lru_cache` persists after a feature-building batch ends, so a subsequent batch
in the same process does observe cached entries from the earlier one — its
lookup of a key the earlier batch touched returns the cached payload regardless
of the current state of the store. -/
theorem stats_cache_process_global (sdb1 sdb2 : List GameStatisticsRow)
    (keys : List (ℕ × ℕ)) (gid tid : ℕ)
    (hmem : (gid, tid) ∈ keys) :
    ∃ payload,
      cacheLookup (run_stats_batch sdb1 [] keys).2 gid tid = some payload ∧
      (statistics_payload_cached sdb2 (run_stats_batch sdb1 [] keys).2 gid tid).1
        = payload := by
  obtain ⟨p, hp⟩ := cacheLookup_after_batch sdb1 keys [] gid tid hmem
  exact ⟨p, hp, payload_cached_hit sdb2 _ gid tid p hp⟩

/-- Witness for the amended C6 at the concrete two-batch scenario. -/
theorem stats_cache_process_global_witness :
    ∃ payload,
      cacheLookup (run_stats_batch sdbFirst [] [(1, 2)]).2 1 2 = some payload ∧
      (statistics_payload_cached sdbSecond (run_stats_batch sdbFirst [] [(1, 2)]).2 1 2).1
        = payload :=
  stats_cache_process_global sdbFirst sdbSecond [(1, 2)] 1 2 (by decide)


/-- A concrete five-row dataset: the header carries every core, extended and
target column, and every row has both targets present (five usable rows). -/
def csvW : Csv :=
  { header := POISSON_FEATURE_COLUMNS ++ XG_FEATURE_COLUMNS ++
      ["total_goals_actual", "is_over_2_5"]
    rows := [[("total_goals_actual", some 3), ("is_over_2_5", some 1),
               ("home_attack_form_5", some 1)],
             [("total_goals_actual", some 2), ("is_over_2_5", some 0),
               ("home_attack_form_5", none)],
             [("total_goals_actual", some 1), ("is_over_2_5", some 0)],
             [("total_goals_actual", some 4), ("is_over_2_5", some 1)],
             [("total_goals_actual", some 0), ("is_over_2_5", some 0)]] }

/-- For a non-negative argument, Python `int(...)` truncation is the floor. -/
theorem pyTrunc_eq_floor (q : ℚ) (h : 0 ≤ q) : pyTrunc q = ⌊q⌋ :=
  if_neg (not_lt.mpr h)

/-- Claim C7: for every loaded dataset of `N` usable rows and train ratio `r`,
the chronological split takes the first `floor(N*r)` rows as the training
partition and the remaining rows as the test partition, and it raises an error
before any training attempt if and only if the train or test partition would be
empty (`floor(N*r) = 0` or `floor(N*r) >= N`) — for both the Poisson
validation loader and the classifier split loader. -/
theorem chronological_split_spec (csv : Csv) (r : ℚ) (N M : ℕ)
    (hr : 0 ≤ r)
    (hcolsP : ∀ c ∈ POISSON_FEATURE_COLUMNS ++ [POISSON_TARGET_COLUMN, "is_over_2_5"],
      csv.header.contains c = true)
    (hN : N = (poisson_model.usableRows csv).length)
    (hcolsX : ∀ c ∈ dedupKeepFirst (XG_INPUT_COLUMNS ++ [xg_classifier.TARGET_COLUMN]),
      csv.header.contains c = true)
    (hM : M = (csv.rows.filter
      (fun row => (getCell row xg_classifier.TARGET_COLUMN).isSome)).length) :
    ((∃ e, poisson_model.load_dataset_for_validation csv r = .error e) ↔
      (⌊(N : ℚ) * r⌋ = 0 ∨ (N : ℤ) ≤ ⌊(N : ℚ) * r⌋)) ∧
    (∀ s, poisson_model.load_dataset_for_validation csv r = .ok s →
      s.X_train = ((poisson_model.usableRows csv).take (⌊(N : ℚ) * r⌋).toNat).map pmFeatureVector ∧
      s.y_train = ((poisson_model.usableRows csv).take (⌊(N : ℚ) * r⌋).toNat).map pmTargetValue ∧
      s.X_test = ((poisson_model.usableRows csv).drop (⌊(N : ℚ) * r⌋).toNat).map pmFeatureVector ∧
      s.y_test = ((poisson_model.usableRows csv).drop (⌊(N : ℚ) * r⌋).toNat).map pmTargetValue) ∧
    ((⌊(N : ℚ) * r⌋ = 0 ∨ (N : ℤ) ≤ ⌊(N : ℚ) * r⌋) →
      ∃ e, poisson_model.validation_pipeline csv r = .error e) ∧
    ((∃ e, xg_classifier.load_dataset_split csv r none = .error e) ↔
      (⌊(M : ℚ) * r⌋ = 0 ∨ (M : ℤ) ≤ ⌊(M : ℚ) * r⌋)) ∧
    (∀ X y s, xg_classifier.load_dataset csv none = .ok (X, y) →
      xg_classifier.load_dataset_split csv r none = .ok s →
      s.X_train = X.take (⌊(M : ℚ) * r⌋).toNat ∧
      s.y_train = y.take (⌊(M : ℚ) * r⌋).toNat ∧
      s.X_test = X.drop (⌊(M : ℚ) * r⌋).toNat ∧
      s.y_test = y.drop (⌊(M : ℚ) * r⌋).toNat) ∧
    ((⌊(M : ℚ) * r⌋ = 0 ∨ (M : ℤ) ≤ ⌊(M : ℚ) * r⌋) →
      ∃ e, xg_classifier.train_pipeline csv r none = .error e) := by
  subst hN
  subst hM
  have hfindP : (POISSON_FEATURE_COLUMNS ++ [POISSON_TARGET_COLUMN, "is_over_2_5"]).find?
      (fun c => !(csv.header.contains c)) = none :=
    List.find?_eq_none.mpr (fun c hc => by simpa using hcolsP c hc)
  have hfloorN : pyTrunc (((poisson_model.usableRows csv).length : ℚ) * r)
      = ⌊((poisson_model.usableRows csv).length : ℚ) * r⌋ :=
    pyTrunc_eq_floor _ (mul_nonneg (by positivity) hr)
  have hP : poisson_model.load_dataset_for_validation csv r =
      (if pyTrunc (((poisson_model.usableRows csv).length : ℚ) * r) = 0 ∨
          ((poisson_model.usableRows csv).length : ℤ) ≤
            pyTrunc (((poisson_model.usableRows csv).length : ℚ) * r) then
        Except.error "Dataset too small for 80/20 split."
      else
        Except.ok
          { X_train := ((poisson_model.usableRows csv).take
              (pyTrunc (((poisson_model.usableRows csv).length : ℚ) * r)).toNat).map pmFeatureVector
            y_train := ((poisson_model.usableRows csv).take
              (pyTrunc (((poisson_model.usableRows csv).length : ℚ) * r)).toNat).map pmTargetValue
            X_test := ((poisson_model.usableRows csv).drop
              (pyTrunc (((poisson_model.usableRows csv).length : ℚ) * r)).toNat).map pmFeatureVector
            y_test := ((poisson_model.usableRows csv).drop
              (pyTrunc (((poisson_model.usableRows csv).length : ℚ) * r)).toNat).map pmTargetValue
            y_test_over25 := ((poisson_model.usableRows csv).drop
              (pyTrunc (((poisson_model.usableRows csv).length : ℚ) * r)).toNat).map
                (fun row => pyTrunc ((getCell row "is_over_2_5").getD 0)) }) := by
    simp only [poisson_model.load_dataset_for_validation, hfindP]
  have hmissX : (dedupKeepFirst (XG_INPUT_COLUMNS ++ [xg_classifier.TARGET_COLUMN])).filter
      (fun c => !(csv.header.contains c)) = [] :=
    List.filter_eq_nil_iff.mpr (fun c hc => by simpa using hcolsX c hc)
  have hXg : xg_classifier.load_dataset csv none =
      Except.ok
        ((csv.rows.filter (fun row =>
            (getCell row xg_classifier.TARGET_COLUMN).isSome)).map
              (fun row => XG_INPUT_COLUMNS.map (fun c => fillZero (getCell row c))),
          (csv.rows.filter (fun row =>
            (getCell row xg_classifier.TARGET_COLUMN).isSome)).map
              (fun row => pyTrunc ((getCell row xg_classifier.TARGET_COLUMN).getD 0))) := by
    simp only [xg_classifier.load_dataset, xg_classifier.resolvedColumns, hmissX,
      List.isEmpty_nil, Bool.not_true, Bool.false_eq_true, if_false]
  set kX := csv.rows.filter (fun row =>
    (getCell row xg_classifier.TARGET_COLUMN).isSome) with hkX
  have hfloorM : pyTrunc ((kX.length : ℚ) * r) = ⌊(kX.length : ℚ) * r⌋ :=
    pyTrunc_eq_floor _ (mul_nonneg (by positivity) hr)
  have htr0 : (0 : ℤ) ≤ pyTrunc ((kX.length : ℚ) * r) := by
    rw [hfloorM]
    exact Int.le_floor.mpr (by positivity)
  have hS : xg_classifier.load_dataset_split csv r none =
      (if pyTrunc ((kX.length : ℚ) * r) ≤ 0 ∨
          (kX.length : ℤ) ≤ pyTrunc ((kX.length : ℚ) * r) then
        Except.error "Dataset too small for requested train/test split."
      else
        Except.ok
          { X_train := (kX.map (fun row =>
              XG_INPUT_COLUMNS.map (fun c => fillZero (getCell row c)))).take
                (pyTrunc ((kX.length : ℚ) * r)).toNat
            y_train := (kX.map (fun row =>
              pyTrunc ((getCell row xg_classifier.TARGET_COLUMN).getD 0))).take
                (pyTrunc ((kX.length : ℚ) * r)).toNat
            X_test := (kX.map (fun row =>
              XG_INPUT_COLUMNS.map (fun c => fillZero (getCell row c)))).drop
                (pyTrunc ((kX.length : ℚ) * r)).toNat
            y_test := (kX.map (fun row =>
              pyTrunc ((getCell row xg_classifier.TARGET_COLUMN).getD 0))).drop
                (pyTrunc ((kX.length : ℚ) * r)).toNat }) := by
    simp only [xg_classifier.load_dataset_split, hXg, List.length_map]
  refine ⟨?_, ?_, ?_, ?_, ?_, ?_⟩
  · rw [← hfloorN, hP]
    by_cases hc : pyTrunc (((poisson_model.usableRows csv).length : ℚ) * r) = 0 ∨
        ((poisson_model.usableRows csv).length : ℤ) ≤
          pyTrunc (((poisson_model.usableRows csv).length : ℚ) * r)
    · rw [if_pos hc]
      exact ⟨fun _ => hc, fun _ => ⟨_, rfl⟩⟩
    · rw [if_neg hc]
      constructor
      · rintro ⟨e, he⟩
        cases he
      · intro h
        exact absurd h hc
  · intro s hs
    rw [← hfloorN]
    rw [hP] at hs
    by_cases hc : pyTrunc (((poisson_model.usableRows csv).length : ℚ) * r) = 0 ∨
        ((poisson_model.usableRows csv).length : ℤ) ≤
          pyTrunc (((poisson_model.usableRows csv).length : ℚ) * r)
    · rw [if_pos hc] at hs
      cases hs
    · rw [if_neg hc] at hs
      injection hs with h
      subst h
      exact ⟨rfl, rfl, rfl, rfl⟩
  · intro hc
    rw [← hfloorN] at hc
    unfold poisson_model.validation_pipeline
    rw [hP, if_pos hc]
    exact ⟨_, rfl⟩
  · rw [← hfloorM, hS]
    by_cases hc : pyTrunc ((kX.length : ℚ) * r) ≤ 0 ∨
        (kX.length : ℤ) ≤ pyTrunc ((kX.length : ℚ) * r)
    · rw [if_pos hc]
      refine ⟨fun _ => ?_, fun _ => ⟨_, rfl⟩⟩
      rcases hc with hc | hc
      · exact Or.inl (le_antisymm hc htr0)
      · exact Or.inr hc
    · rw [if_neg hc]
      constructor
      · rintro ⟨e, he⟩
        cases he
      · rintro (h | h)
        · exact absurd (Or.inl (le_of_eq h)) hc
        · exact absurd (Or.inr h) hc
  · intro X y s hXy hs
    rw [hXg] at hXy
    injection hXy with hp
    have hX : X = kX.map (fun row => XG_INPUT_COLUMNS.map (fun c => fillZero (getCell row c))) :=
      congrArg Prod.fst hp.symm
    have hy : y = kX.map (fun row =>
        pyTrunc ((getCell row xg_classifier.TARGET_COLUMN).getD 0)) :=
      congrArg Prod.snd hp.symm
    rw [← hfloorM]
    rw [hS] at hs
    by_cases hc : pyTrunc ((kX.length : ℚ) * r) ≤ 0 ∨
        (kX.length : ℤ) ≤ pyTrunc ((kX.length : ℚ) * r)
    · rw [if_pos hc] at hs
      cases hs
    · rw [if_neg hc] at hs
      injection hs with h
      subst h
      subst hX
      subst hy
      exact ⟨rfl, rfl, rfl, rfl⟩
  · intro hc
    rw [← hfloorM] at hc
    unfold xg_classifier.train_pipeline
    rw [hS, if_pos ?_]
    · exact ⟨_, rfl⟩
    · rcases hc with hc | hc
      · exact Or.inl (le_of_eq hc)
      · exact Or.inr hc


/-- Witness for C7: at ratio `0` on a concrete five-row dataset both loaders
raise before training. -/
theorem chronological_split_spec_witness :
    (∃ e, poisson_model.load_dataset_for_validation csvW 0 = .error e) ∧
    (∃ e, poisson_model.validation_pipeline csvW 0 = .error e) ∧
    (∃ e, xg_classifier.load_dataset_split csvW 0 none = .error e) ∧
    (∃ e, xg_classifier.train_pipeline csvW 0 none = .error e) := by
  obtain ⟨h1, -, h3, h4, -, h6⟩ := chronological_split_spec csvW 0 5 5 (le_refl 0)
    (by decide) (by decide) (by decide) (by decide)
  exact ⟨h1.mpr (Or.inl (by norm_num)), h3 (Or.inl (by norm_num)),
    h4.mpr (Or.inl (by norm_num)), h6 (Or.inl (by norm_num))⟩


/-- Membership is invariant under first-occurrence deduplication. -/
theorem mem_dedupKeepFirst (l : List String) (x : String) :
    x ∈ dedupKeepFirst l ↔ x ∈ l := by
  suffices h : ∀ (l acc : List String) (x : String),
      (x ∈ l.foldl (fun acc y => if acc.contains y then acc else acc ++ [y]) acc ↔
        x ∈ acc ∨ x ∈ l) by
    simpa [dedupKeepFirst] using h l [] x
  intro l
  induction l with
  | nil => intro acc x; simp
  | cons y t ih =>
      intro acc x
      simp only [List.foldl_cons]
      rw [ih]
      by_cases hy : acc.contains y
      · rw [if_pos hy]
        have hymem : y ∈ acc := by simpa using hy
        constructor
        · rintro (h | h)
          · exact Or.inl h
          · exact Or.inr (List.mem_cons_of_mem _ h)
        · rintro (h | h)
          · exact Or.inl h
          · rcases List.mem_cons.mp h with rfl | h
            · exact Or.inl hymem
            · exact Or.inr h
      · rw [if_neg hy]
        constructor
        · rintro (h | h)
          · rcases List.mem_append.mp h with h | h
            · exact Or.inl h
            · simp only [List.mem_singleton] at h
              subst h
              exact Or.inr (List.mem_cons_self _ _)
          · exact Or.inr (List.mem_cons_of_mem _ h)
        · rintro (h | h)
          · exact Or.inl (List.mem_append.mpr (Or.inl h))
          · rcases List.mem_cons.mp h with rfl | h
            · exact Or.inl (List.mem_append.mpr (Or.inr (by simp)))
            · exact Or.inr h

/-- Claim C8: dataset loading validates column presence strictly: if any
required feature or target column is absent from the loaded CSV, loading
raises a fatal error and no model is trained (no partial training occurs) —
for both the Poisson loader and the classifier loader. -/
theorem missing_column_aborts (csv : Csv) :
    (∀ c ∈ POISSON_FEATURE_COLUMNS ++ [POISSON_TARGET_COLUMN],
      csv.header.contains c = false →
      (∃ e, poisson_model.load_dataset csv = .error e) ∧
      (∃ e, poisson_model.train_pipeline csv = .error e)) ∧
    (∀ (feature_columns : Option (List String)) (r : ℚ),
      ∀ c ∈ xg_classifier.resolvedColumns feature_columns ++ [xg_classifier.TARGET_COLUMN],
      csv.header.contains c = false →
      (∃ e, xg_classifier.load_dataset csv feature_columns = .error e) ∧
      (∃ e, xg_classifier.train_pipeline csv r feature_columns = .error e)) := by
  constructor
  · intro c hc habs
    cases hf : (POISSON_FEATURE_COLUMNS ++ [POISSON_TARGET_COLUMN]).find?
        (fun c => !(csv.header.contains c)) with
    | none =>
        have hp := List.find?_eq_none.mp hf c hc
        rw [habs] at hp
        exact absurd rfl hp
    | some c0 =>
        have hload : poisson_model.load_dataset csv = .error ("Missing column: " ++ c0) := by
          unfold poisson_model.load_dataset
          rw [hf]
        have hpipe : poisson_model.train_pipeline csv
            = .error ("Missing column: " ++ c0) := by
          unfold poisson_model.train_pipeline
          rw [hload]
        exact ⟨⟨_, hload⟩, ⟨_, hpipe⟩⟩
  · intro fc r c hc habs
    have hmem : c ∈ dedupKeepFirst
        (xg_classifier.resolvedColumns fc ++ [xg_classifier.TARGET_COLUMN]) :=
      (mem_dedupKeepFirst _ _).mpr hc
    have hmiss : c ∈ (dedupKeepFirst
        (xg_classifier.resolvedColumns fc ++ [xg_classifier.TARGET_COLUMN])).filter
          (fun c => !(csv.header.contains c)) :=
      List.mem_filter.mpr ⟨hmem, by rw [habs]; rfl⟩
    have hfalse : ((dedupKeepFirst
        (xg_classifier.resolvedColumns fc ++ [xg_classifier.TARGET_COLUMN])).filter
          (fun c => !(csv.header.contains c))).isEmpty = false := by
      cases hemp : ((dedupKeepFirst
          (xg_classifier.resolvedColumns fc ++ [xg_classifier.TARGET_COLUMN])).filter
            (fun c => !(csv.header.contains c))).isEmpty with
      | false => rfl
      | true =>
          rw [List.isEmpty_iff] at hemp
          rw [hemp] at hmiss
          cases hmiss
    have hload : xg_classifier.load_dataset csv fc =
        .error ("Missing column(s) in dataset: " ++ String.intercalate ", "
          ((dedupKeepFirst
            (xg_classifier.resolvedColumns fc ++ [xg_classifier.TARGET_COLUMN])).filter
              (fun c => !(csv.header.contains c)))) := by
      simp only [xg_classifier.load_dataset, hfalse, Bool.not_false, if_true]
    have hpipe : xg_classifier.train_pipeline csv r fc =
        .error ("Missing column(s) in dataset: " ++ String.intercalate ", "
          ((dedupKeepFirst
            (xg_classifier.resolvedColumns fc ++ [xg_classifier.TARGET_COLUMN])).filter
              (fun c => !(csv.header.contains c)))) := by
      unfold xg_classifier.train_pipeline xg_classifier.load_dataset_split
      rw [hload]
    exact ⟨⟨_, hload⟩, ⟨_, hpipe⟩⟩

/-- A header with only the target column, used to witness the abort path. -/
def csvBad : Csv := { header := ["total_goals_actual"], rows := [] }

/-- Witness for C8: a concrete CSV missing `home_attack_form_5` aborts both
loaders and both training pipelines. -/
theorem missing_column_aborts_witness :
    ((∃ e, poisson_model.load_dataset csvBad = .error e) ∧
      (∃ e, poisson_model.train_pipeline csvBad = .error e)) ∧
    ((∃ e, xg_classifier.load_dataset csvBad none = .error e) ∧
      (∃ e, xg_classifier.train_pipeline csvBad (4/5) none = .error e)) := by
  obtain ⟨hA, hB⟩ := missing_column_aborts csvBad
  exact ⟨hA "home_attack_form_5" (by decide) (by decide),
    hB none (4/5) "home_attack_form_5" (by decide) (by decide)⟩


/-- Claim C9: the expected-goals model path uses exactly the 13 core
(non-extended) feature columns, and every missing feature value in those
columns is imputed to `0.0` (zero-imputation, not mean-imputation) before
fitting and before inference. -/
theorem poisson_core_columns_and_zero_imputation :
    POISSON_FEATURE_COLUMNS.length = 13 ∧
    (∀ c ∈ XG_FEATURE_COLUMNS, c ∉ POISSON_FEATURE_COLUMNS) ∧
    (∀ csv X y, poisson_model.load_dataset csv = .ok (X, y) →
      X = (csv.rows.filter (fun row => (getCell row POISSON_TARGET_COLUMN).isSome)).map
        (fun row => POISSON_FEATURE_COLUMNS.map (fun c => fillZero (getCell row c))) ∧
      ∀ x ∈ X, x.length = 13) ∧
    (∀ v : Option ℚ, v = none → fillZero v = 0) ∧
    (∀ v : ℚ, fillZero (some v) = v) ∧
    (∀ row_raw, poisson_model.predictInputRow row_raw =
      POISSON_FEATURE_COLUMNS.map
        (fun col => poisson_model.pyOrZeroQ (poisson_model.dictGet row_raw col))) ∧
    (∀ row_raw, (poisson_model.predictInputRow row_raw).length = 13) ∧
    (∀ d c, poisson_model.dictGet d c = none → poisson_model.pyOrZeroQ (poisson_model.dictGet d c) = 0) ∧
    poisson_model.predictInputRow
        [("home_attack_form_5", some 2), ("away_attack_form_5", none)] =
      2 :: List.replicate 12 0 := by
  refine ⟨rfl, by decide, ?_, ?_, fun v => rfl, fun row_raw => rfl, ?_, ?_, ?_⟩
  · intro csv X y hXy
    cases hf : (POISSON_FEATURE_COLUMNS ++ [POISSON_TARGET_COLUMN]).find?
        (fun c => !(csv.header.contains c)) with
    | some c0 =>
        unfold poisson_model.load_dataset at hXy
        rw [hf] at hXy
        cases hXy
    | none =>
        unfold poisson_model.load_dataset at hXy
        rw [hf] at hXy
        injection hXy with hp
        have hX : X = (csv.rows.filter (fun row =>
            (getCell row POISSON_TARGET_COLUMN).isSome)).map pmFeatureVector :=
          congrArg Prod.fst hp.symm
        subst hX
        refine ⟨rfl, ?_⟩
        intro x hx
        obtain ⟨row, -, hrow⟩ := List.mem_map.mp hx
        rw [← hrow]
        unfold pmFeatureVector
        rw [List.length_map]
        rfl
  · intro v hv
    rw [hv]
    rfl
  · intro d
    unfold poisson_model.predictInputRow
    rw [List.length_map]
    rfl
  · intro d c h
    rw [h]
    rfl
  · decide

/-- The feature matrix the Poisson loader extracts from `csvW`: the only
non-missing feature cell is row 1's `home_attack_form_5 = 1`; every other
feature value is zero-imputed. -/
def matXW : List (List ℚ) :=
  [1 :: List.replicate 12 0, List.replicate 13 0, List.replicate 13 0,
    List.replicate 13 0, List.replicate 13 0]

/-- The clipped integer targets the Poisson loader extracts from `csvW`. -/
def vecYW : List ℤ := [3, 2, 1, 4, 0]

/-- Witness for C9: the loader applied to the concrete dataset `csvW` produces
13-length zero-imputed feature vectors, and a missing value at the inference
boundary becomes `0.0`. -/
theorem poisson_core_columns_and_zero_imputation_witness :
    (∀ x ∈ matXW, x.length = 13) ∧
    poisson_model.pyOrZeroQ (poisson_model.dictGet
      [("home_attack_form_5", (none : Option ℚ))] "home_attack_form_5") = 0 := by
  obtain ⟨-, -, hC, -, -, -, -, hH, -⟩ := poisson_core_columns_and_zero_imputation
  have hok : poisson_model.load_dataset csvW = .ok (matXW, vecYW) := by
    simp +decide [poisson_model.load_dataset, csvW, pmFeatureVector, pmTargetValue,
      getCell, fillZero, pyTrunc, POISSON_FEATURE_COLUMNS, POISSON_TARGET_COLUMN,
      matXW, vecYW, List.replicate]
  constructor
  · obtain ⟨hXdesc, hlen⟩ := hC csvW matXW vecYW hok
    exact hlen
  · exact hH [("home_attack_form_5", (none : Option ℚ))] "home_attack_form_5" rfl

end BetPrediction
